import Mathlib

/-!
Verification of the dubbo-js provider-side server
(`packages/dubbo-service/src/dubbo-server.ts`) against its
natural-language specification.

The embedding below translates the request-routing, pipeline, URL-building,
registration and lifecycle logic of `DubboServer` into Lean. JavaScript
values, errors and the per-request context are modelled explicitly; the
mutable context threaded through the koa-compose middleware chain becomes
explicit state passing. External collaborators that the source only calls
(the hessian representability predicate `util.checkRetValHessian`, the
percent-encoder used by `qs.stringify`, the setting lookup) are parameters.
-/

namespace DubboServer

/-- JavaScript values as far as the server manipulates them: request
arguments, handler return values, response bodies. -/
inductive JsValue where
  | str (s : String)
  | num (n : Int)
  | boolean (b : Bool)
  | null
  | undefined
  deriving DecidableEq, Repr

/-- JavaScript errors thrown/caught by the server code. -/
inductive JsErr where
  | error (msg : String)
  | typeError (msg : String)
  deriving DecidableEq, Repr

/-- A response body slot: unset (fresh context), a success value, or an
error object. -/
inductive Body where
  | empty
  | val (v : JsValue)
  | err (e : JsErr)
  deriving DecidableEq, Repr

/-- The response-status constants the server uses
(`DUBBO_RESPONSE_STATUS` from the serialization package; only the three
statuses the server assigns are needed). -/
inductive DUBBO_RESPONSE_STATUS where
  | OK
  | SERVICE_NOT_FOUND
  | SERVER_ERROR
  deriving DecidableEq, Repr

/-- The attachment of a decoded dubbo request:
`attachment: {path, group, version}`; group and version may be absent. -/
structure Attachment where
  path : String
  group : Option String
  version : Option String
  deriving DecidableEq, Repr

/-- A decoded dubbo request (`decodeDubboRequest(data)`):
`{methodName, args, attachment:{path, group, version}}`. -/
structure Request where
  methodName : String
  args : List JsValue
  attachment : Attachment
  deriving DecidableEq, Repr

/-- A service method: receives the request arguments (the context is
appended as last argument by the server) and either returns a value or
throws. -/
def Handler : Type := List JsValue → JsErr ⊕ JsValue

/-- A service descriptor (`IDubboService`): interface name, group,
version, and the method table. The method table is a finite map from
method name to handler, kept as an association list. -/
structure IDubboService where
  dubboInterface : String
  group : String
  version : String
  methods : List (String × Handler)

/-- `s.methods[methodName]` — method lookup in the service's method
table (first binding wins, as in a JS object there is at most one). -/
def lookupMethod (methods : List (String × Handler)) (name : String) :
    Option Handler :=
  List.lookup name methods

/-- The per-request context (`new Context(request)`).
Modelled from the spec: `context.ts` is not under src/; §3 says the
context is created fresh per inbound request and holds the decoded
request, a response status code and a response body. A fresh context has
no status assigned yet and an unset body. -/
structure Context where
  request : Request
  status : Option DUBBO_RESPONSE_STATUS
  body : Body

/-- `new Context(request)` - fresh per-request context. -/
def Context.fresh (request : Request) : Context :=
  { request := request, status := none, body := Body.empty }

/-! ## The service router

`serviceRouter : Map<DubboServiceClazzName, Array<IDubboService>>`,
modelled as an association list from interface name to the bucket of
services registered under that interface, in registration order. -/

/-- The router table. -/
def Router : Type := List (String × List IDubboService)

/-- One step of the bucket-collection loop in `registerServices`
(lines 257-262): if the router already has a bucket for the interface,
append the service to it, otherwise start a new bucket. -/
def routerInsert : Router → String → IDubboService → Router
  | [], iface, s => [(iface, [s])]
  | (k, l) :: rest, iface, s =>
    if k = iface then (k, l ++ [s]) :: rest
    else (k, l) :: routerInsert rest iface s

/-- `this.serviceRouter.get(path) || []` — the bucket registered under
the interface name, or the empty list. Keys in the router are unique
(`routerInsert` only adds a key that is not yet present), so first-key
lookup is Map lookup. -/
def bucketOf : Router → String → List IDubboService
  | [], _ => []
  | (k, l) :: rest, iface => if k = iface then l else bucketOf rest iface

/-- The router produced by registering the given services in order
(the bucket-collection part of the `registerServices` loop). -/
def buildRouter (svcs : List IDubboService) : Router :=
  svcs.foldl (fun r s => routerInsert r s.dubboInterface s) []

/-- The predicate of the `find` call in `matchService` (lines 317-321):
`s.methods[methodName] && isSameGroup && isSameVersion`, where
`isSameVersion = (version == '*' || s.version === version)` and
`isSameGroup = (group === s.group)`. -/
def matchPred (methodName group version : String) (s : IDubboService) :
    Bool :=
  let isSameVersion := version = "*" || s.version = version
  let isSameGroup := group = s.group
  (lookupMethod s.methods methodName).isSome && isSameGroup && isSameVersion

/-- `matchService(request)` (lines 310-322): destructure
`{path, group = '', version = '0.0.0'}` from the attachment, fetch the
bucket for `path`, and return the first service whose method table has
the method and whose group/version match. -/
def matchService (router : Router) (request : Request) :
    Option IDubboService :=
  let methodName := request.methodName
  let path := request.attachment.path
  let group := request.attachment.group.getD ""
  let version := request.attachment.version.getD "0.0.0"
  let serviceList := bucketOf router path
  serviceList.find? (matchPred methodName group version)

/-! ## The middleware pipeline

`invokeComposeChainRequest` (lines 176-230) builds a koa-compose chain
from the registered middlewares plus the terminal `handleRequest` step
and runs it over the mutable context. The mutable context (and the
global object, see below) become explicit state; a middleware receives
the current state and a `next` continuation, as in koa, and either
returns the updated state or throws, with the state at throw time
preserved (a JS exception does not undo mutations). -/

/-- The global object (`globalThis`). Inside the terminal
`async function handleRequest(ctx)` the source assigns `this.body`
(lines 211 and 214), not `ctx.body`. `handleRequest` is a plain
function invoked by koa-compose as `fn(context, next)` with no
receiver, so `this` is never the context. The package compiles without
`noImplicitThis` (the bare `this` would otherwise be rejected) to
non-strict CommonJS, where an undefined receiver is substituted by the
global object: the assignments write `globalThis.body`. (Under
strict-mode output they would instead throw a TypeError; in neither
semantics is `ctx.body` assigned.) -/
structure GlobalObj where
  body : Body

/-- The state threaded through the middleware chain: the per-request
context plus the global object. -/
structure PipeState where
  ctx : Context
  glob : GlobalObj

/-- Result of running (part of) the chain: the final state, or a thrown
error together with the state at the time of the throw. -/
def PipeResult : Type := JsErr × PipeState ⊕ PipeState

/-- A koa middleware `(ctx, next) => ...`: receives the current state
and the rest of the chain. -/
def Mw : Type := PipeState → (PipeState → PipeResult) → PipeResult

/-- `compose(middlewares)` of koa-compose: each middleware is invoked
with a `next` that runs the rest of the chain; past the last middleware
`next` is a no-op that resolves. -/
def composeRun : List Mw → PipeState → PipeResult
  | [], s => Sum.inr s
  | mw :: rest, s => mw s (composeRun rest)

/-- The terminal `async function handleRequest(ctx)` middleware
(lines 197-216), for a matched `service` and the decoded `request`:
look up the method, set `ctx.status = OK`, invoke the method with the
request arguments; the return value is checked with
`util.checkRetValHessian` (external predicate, a parameter here) and
then assigned to `this.body` — i.e. to the global object's `body`, not
the context's (see `GlobalObj`); a thrown error is caught and likewise
assigned to `this.body`. -/
def handleRequest (service : IDubboService)
    (checkRetValHessian : JsValue → Bool) (request : Request) : Mw :=
  fun s _next =>
    let path := request.attachment.path
    let methodName := request.methodName
    let s := { s with ctx := { s.ctx with status := some DUBBO_RESPONSE_STATUS.OK } }
    match lookupMethod service.methods request.methodName with
    | none =>
      -- `method.apply` with `method` undefined throws a TypeError,
      -- caught by the catch block, which assigns it to `this.body`.
      let e := JsErr.typeError "method is not a function"
      Sum.inr { s with glob := { body := Body.err e } }
    | some method =>
      match method request.args with
      | Sum.inr res =>
        if checkRetValHessian res then
          -- `this.body = res` (line 211): writes the global object.
          Sum.inr { s with glob := { body := Body.val res } }
        else
          -- `throw new Error(...)` (lines 207-209), caught; the catch
          -- assigns the error to `this.body` (line 214).
          let e := JsErr.error
            (path ++ "#" ++ methodName ++ " return value not hessian type")
          Sum.inr { s with glob := { body := Body.err e } }
      | Sum.inl e =>
        -- the method threw; caught; `this.body = err` (line 214).
        Sum.inr { s with glob := { body := Body.err e } }

/-- The error message of the service-not-found branch (lines 189-191):
`Service not found with ${path} and ${methodName}, group:${group},
version:${version}`. Note that in `invokeComposeChainRequest` only
`group` gets a default (`group = ''`, line 183); an absent `version`
renders as `undefined` in the template string. -/
def serviceNotFoundMsg (request : Request) : String :=
  let path := request.attachment.path
  let methodName := request.methodName
  let group := request.attachment.group.getD ""
  let version := request.attachment.version.getD "undefined"
  "Service not found with " ++ path ++ " and " ++ methodName ++
    ", group:" ++ group ++ ", version:" ++ version

/-- `invokeComposeChainRequest(data)` (lines 176-230), after decoding:
match the service; if none, return the context with status
SERVICE_NOT_FOUND and a descriptive error body without building or
running the middleware chain; otherwise compose the registered
middlewares with the terminal `handleRequest` step and run the chain;
an error escaping the whole chain is caught, setting status
SERVER_ERROR and the error as body. -/
def invokeComposeChainRequest (middlewares : List Mw) (router : Router)
    (checkRetValHessian : JsValue → Bool) (request : Request)
    (glob : GlobalObj) : Context × GlobalObj :=
  let service := matchService router request
  let ctx := Context.fresh request
  match service with
  | none =>
    ({ ctx with
        status := some DUBBO_RESPONSE_STATUS.SERVICE_NOT_FOUND,
        body := Body.err (JsErr.error (serviceNotFoundMsg request)) },
      glob)
  | some service =>
    let chain := middlewares ++ [handleRequest service checkRetValHessian request]
    match composeRun chain { ctx := ctx, glob := glob } with
    | Sum.inr s => (s.ctx, s.glob)
    | Sum.inl (e, s) =>
      ({ s.ctx with
          status := some DUBBO_RESPONSE_STATUS.SERVER_ERROR,
          body := Body.err e },
        s.glob)

/-! ## Construction-time validation -/

/-- `checkProps(props)` (lines 108-116): `util.isObj(props.registry)`
and `util.isObj(props.services)` must hold, otherwise a configuration
error is thrown synchronously. `util.isObj` (external) tests
object-ness only — an absent (or non-object) value fails it, while any
present object, including an empty service map, passes. Absence is
modelled by `Option.none`; the registry handle itself is opaque. -/
def checkProps (registry : Option Unit)
    (services : Option (List (String × IDubboService))) :
    Except JsErr Unit :=
  if registry.isNone then
    Except.error (JsErr.error "Please specify registry, use Zk or Nacos init registry")
  else if services.isNone then
    Except.error (JsErr.error "Please specify dubbo service")
  else
    Except.ok ()

/-! ## Registration URL building -/

/-- The object literal passed to `qs.stringify` in `buildUrl`
(lines 289-301), as an ordered key/value list; numbers and booleans are
stringified as `qs.stringify` does. Note the source spells the protocol
key `protocal`. The `method` value is `Object.keys(methods).join()` —
the comma-join of the method names. -/
def buildUrlPairs (service : IDubboService) (pid : Nat)
    (timestamp : Nat) : List (String × String) :=
  [("group", service.group),
   ("version", service.version),
   ("method", String.intercalate "," (service.methods.map Prod.fst)),
   ("side", "provider"),
   ("pid", toString pid),
   ("generic", "false"),
   ("protocal", "dubbo"),
   ("dynamic", "true"),
   ("category", "providers"),
   ("anyhost", "true"),
   ("timestamp", toString timestamp)]

/-- `qs.stringify(obj)`: join `key=encode(value)` pairs with `&`,
percent-encoding every value with the standard query encoder (the
encoder is a parameter; the keys here are all plain ASCII names that
encoding leaves untouched). -/
def qsStringify (encode : String → String)
    (pairs : List (String × String)) : String :=
  String.intercalate "&" (pairs.map fun p => p.1 ++ "=" ++ encode p.2)

/-- `buildUrl(service)` (lines 282-303):
`dubbo://${ipAddr}:${this.port}/${dubboInterface}?` followed by the
stringified query object. -/
def buildUrl (encode : String → String) (ipAddr : String) (port : Nat)
    (service : IDubboService) (pid : Nat) (timestamp : Nat) : String :=
  "dubbo://" ++ ipAddr ++ ":" ++ toString port ++ "/" ++
    service.dubboInterface ++ "?" ++
    qsStringify encode (buildUrlPairs service pid timestamp)

/-! ## close() -/

/-- Outcome of `close()` (lines 339-350). `registryClosed` records that
`this.registry.close()` ran; `settled` is the settlement of the
returned promise: `some (ok ())` if the listener's close callback fired
without error, `some (error e)` if it reported `e`, and `none` if the
promise never settles. -/
structure CloseResult where
  registryClosed : Bool
  settled : Option (Except JsErr Unit)

/-- `close()` (lines 339-350): close the registry, then
`this.server?.close(cb)` — when the listener exists, the promise
settles according to the close callback's error argument; when
`this.server` is undefined (listener never opened) the optional call
short-circuits and neither `resolve` nor `reject` ever runs. The
listener is modelled by the outcome its close callback would report. -/
def close (server : Option (Except JsErr Unit)) : CloseResult :=
  { registryClosed := true
    settled :=
      match server with
      | none => none
      | some outcome => some outcome }

/-! ## Startup lifecycle: listen success path and service registration

The asynchronous startup path is modelled as the ordered trace of its
observable events. `listen` (lines 121-141) allocates a port and binds;
the bind-success callback (lines 127-132) runs, in source order:
`this.resolve()` (the readiness promise resolves), `this.retry.reset()`,
`this.registerServices()`. `registerServices` (lines 235-274) first
awaits `this.registry.ready()` — on failure it rethrows and, being
un-awaited and un-caught in the callback, the error goes nowhere — then
builds the full batch of (interface, url) pairs over every service and
finally calls `this.registry.registyServices(batch)` once. -/

/-- Observable startup events, in the order they occur. -/
inductive Ev where
  /-- `randomPort()` resolved with this port. -/
  | portAllocated (port : Nat)
  /-- the `listen` success callback entered (socket bound). -/
  | listenBound (port : Nat)
  /-- `this.resolve()` — the readiness promise resolves. -/
  | readyResolved
  /-- `this.reject(err)` — the readiness promise rejects (only reachable
  from the bind-error path, line 138). -/
  | readyRejected
  /-- `this.retry.reset()`. -/
  | retryReset
  /-- `this.registry.ready()` called. -/
  | registryReadyCalled
  /-- `this.registry.registyServices(batch)` called with this batch of
  (interface, url) pairs. -/
  | registryInformed (batch : List (String × String))
  deriving DecidableEq, Repr

/-- The group/version meta resolution of the `registerServices` loop
(lines 248-255): `this.dubboSetting ? this.dubboSetting.getDubboSetting(...)
: {group: '', version: '0.0.0'}`, then assigned onto the service. The
setting lookup (external collaborator) maps the short service name and
interface to a (group, version) pair. -/
def assignMeta (setting : Option (String → String → String × String))
    (shortName : String) (svc : IDubboService) : IDubboService :=
  let meta :=
    match setting with
    | some f => f shortName svc.dubboInterface
    | none => ("", "0.0.0")
  { svc with group := meta.1, version := meta.2 }

/-- One iteration of the `registerServices` loop (lines 245-270):
resolve and assign the service's group/version, add it to the service
router, and append its (interface, url) pair to the batch. -/
def registerStep (setting : Option (String → String → String × String))
    (encode : String → String) (ipAddr : String) (port pid timestamp : Nat)
    (acc : Router × List (String × String))
    (entry : String × IDubboService) : Router × List (String × String) :=
  let svc := assignMeta setting entry.1 entry.2
  (routerInsert acc.1 svc.dubboInterface svc,
    acc.2 ++ [(svc.dubboInterface, buildUrl encode ipAddr port svc pid timestamp)])

/-- The `registerServices` loop (lines 245-270) over `Object.entries`
of the service map. Returns the final router and the full batch of
(interface, url) pairs. -/
def registerServicesRun (setting : Option (String → String → String × String))
    (services : List (String × IDubboService)) (encode : String → String)
    (ipAddr : String) (port : Nat) (pid : Nat) (timestamp : Nat) :
    Router × List (String × String) :=
  services.foldl (registerStep setting encode ipAddr port pid timestamp)
    ([], [])

/-- The event trace of `registerServices()` (lines 235-274):
`registry.ready()` is awaited first; on failure the error is rethrown
(and dropped by the un-awaited caller) and nothing else happens; on
success the loop builds the complete batch and `registyServices` is
called exactly once with it. -/
def registerServicesTrace (registryReady : Except JsErr Unit)
    (setting : Option (String → String → String × String))
    (services : List (String × IDubboService)) (encode : String → String)
    (ipAddr : String) (port : Nat) (pid : Nat) (timestamp : Nat) :
    List Ev :=
  Ev.registryReadyCalled ::
    match registryReady with
    | Except.error _ => []
    | Except.ok _ =>
      [Ev.registryInformed
        (registerServicesRun setting services encode ipAddr port pid timestamp).2]

/-- The event trace of a successful `listen()` attempt (lines 121-141):
port allocation, bind, then the success callback in source order —
resolve the readiness promise, reset the retry counter, and run
`registerServices`. -/
def listenSuccessTrace (port : Nat) (registryReady : Except JsErr Unit)
    (setting : Option (String → String → String × String))
    (services : List (String × IDubboService)) (encode : String → String)
    (ipAddr : String) (pid : Nat) (timestamp : Nat) : List Ev :=
  Ev.portAllocated port :: Ev.listenBound port :: Ev.readyResolved ::
    Ev.retryReset ::
    registerServicesTrace registryReady setting services encode ipAddr port
      pid timestamp

/-- Is this event a `registryInformed` announcement? -/
def isInformed : Ev → Bool
  | Ev.registryInformed _ => true
  | _ => false

/-- Helper scan: `seen` records whether a `registryInformed` event has
occurred so far; the scan fails on a `readyResolved` that is not
preceded by one. -/
def resolveOnlyAfterInformedAux : Bool → List Ev → Bool
  | _, [] => true
  | seen, e :: rest =>
    match e with
    | Ev.readyResolved => seen && resolveOnlyAfterInformedAux seen rest
    | _ => resolveOnlyAfterInformedAux (seen || isInformed e) rest

/-- Does every readiness resolution in the trace occur only after the
registry has been informed? (The ordering the specification asserts.) -/
def resolveOnlyAfterInformed (tr : List Ev) : Bool :=
  resolveOnlyAfterInformedAux false tr

/-! ## Concrete fixtures

The `Echo` service of the specification's scenarios: registered under
the default group `""` and version `"0.0.0"`, with a method `say(x)`
returning its argument. -/

/-- `say(x) { return x }`. -/
def echoSay : Handler := fun args => Sum.inr (args.getD 0 JsValue.undefined)

/-- The `Echo` service descriptor. -/
def echoService : IDubboService :=
  { dubboInterface := "Echo", group := "", version := "0.0.0",
    methods := [("say", echoSay)] }

/-- The scenario request
`{path:"Echo", methodName:"say", args:["hi"], group:"", version:"0.0.0"}`. -/
def echoRequest : Request :=
  { methodName := "say", args := [JsValue.str "hi"],
    attachment := { path := "Echo", group := some "", version := some "0.0.0" } }

/-- An `Echo` variant whose `say` handler throws `Error("boom")`. -/
def boomService : IDubboService :=
  { dubboInterface := "Echo", group := "", version := "0.0.0",
    methods := [("say", fun _ => Sum.inl (JsErr.error "boom"))] }

/-- A concrete successful-startup trace: one Echo service, registry
ready succeeds. -/
def sampleTrace : List Ev :=
  listenSuccessTrace 20880 (Except.ok ()) none [("echo", echoService)]
    (fun s => s) "1.2.3.4" 1 0

/-- A concrete startup trace in which the bind succeeds but the
registry's `ready()` fails. -/
def failTrace : List Ev :=
  listenSuccessTrace 20880 (Except.error (JsErr.error "registry down"))
    none [("echo", echoService)] (fun s => s) "1.2.3.4" 1 0

/-- The resolution condition of the routing claim, stated in the
specification's terms: the descriptor's interface equals the request
path, its group exactly equals the requested group (default `""`), its
version equals the requested version unless the requested version is
the wildcard `"*"`, and its method table contains the requested method
name. `matchService` over a built router is proved equivalent to
first-match of this condition in registration order. -/
def resolves (request : Request) (s : IDubboService) : Prop :=
  s.dubboInterface = request.attachment.path ∧
  s.group = request.attachment.group.getD "" ∧
  (request.attachment.version.getD "0.0.0" = "*" ∨
    s.version = request.attachment.version.getD "0.0.0") ∧
  (lookupMethod s.methods request.methodName).isSome = true

/-! ## Theorems -/

/-- C1. The claim says the Echo scenario yields a context with status OK
and body `"hi"`, and in general that the terminal pipeline step sets a
representable return value as the context body. Evaluating the embedded
code at the scenario input shows otherwise: the transport status is set
to OK, but the context body stays unset — the returned value `"hi"` is
written to the global object's `body` slot, because the terminal step
assigns `this.body` (source line 211) inside a plain function where
`this` is not the context. -/
theorem echo_request_value_goes_to_global_not_context :
    invokeComposeChainRequest [] (buildRouter [echoService])
        (fun _ => true) echoRequest { body := Body.empty } =
      ({ request := echoRequest, status := some DUBBO_RESPONSE_STATUS.OK,
         body := Body.empty },
       { body := Body.val (JsValue.str "hi") }) := by
  rfl

/-- C2. The claim says a thrown handler error becomes the context body
while the status stays OK. Evaluating the embedded code on the Echo
variant whose handler throws `Error("boom")`: the status does stay OK,
but the caught error is assigned to `this.body` (source line 214) and
therefore lands on the global object; the context body stays unset and
never equals the thrown error. -/
theorem thrown_error_goes_to_global_not_context :
    invokeComposeChainRequest [] (buildRouter [boomService])
        (fun _ => true) echoRequest { body := Body.empty } =
      ({ request := echoRequest, status := some DUBBO_RESPONSE_STATUS.OK,
         body := Body.empty },
       { body := Body.err (JsErr.error "boom") }) := by
  rfl

/-- C4. When routing finds no service, the request is answered one layer
above the pipeline: the context gets status SERVICE_NOT_FOUND and an
error body naming the path, the method name, the group and the version,
and the result is the same for every middleware stack, every hessian
predicate and every incoming global state — the chain (registered
middlewares and terminal dispatch step alike) is never built or run. -/
theorem service_not_found_response (middlewares : List Mw)
    (router : Router) (checkRetValHessian : JsValue → Bool)
    (request : Request) (glob : GlobalObj)
    (h : matchService router request = none) :
    invokeComposeChainRequest middlewares router checkRetValHessian
        request glob =
      ({ request := request,
         status := some DUBBO_RESPONSE_STATUS.SERVICE_NOT_FOUND,
         body := Body.err (JsErr.error (serviceNotFoundMsg request)) },
       glob) := by
  simp only [invokeComposeChainRequest, h, Context.fresh]

/-- Witness for C4: with an empty router the Echo request has no match,
and the theorem evaluates to the SERVICE_NOT_FOUND context. -/
theorem service_not_found_response_witness :
    matchService [] echoRequest = none ∧
    invokeComposeChainRequest [] [] (fun _ => true) echoRequest
        { body := Body.empty } =
      ({ request := echoRequest,
         status := some DUBBO_RESPONSE_STATUS.SERVICE_NOT_FOUND,
         body := Body.err (JsErr.error (serviceNotFoundMsg echoRequest)) },
       { body := Body.empty }) :=
  ⟨rfl, service_not_found_response [] [] (fun _ => true) echoRequest
    { body := Body.empty } rfl⟩

/-- C7 counterexample. The claim says `close()` settles even when the
listener was never opened, resolving successfully. In the code,
`this.server?.close(cb)` short-circuits when `this.server` is
undefined, so neither `resolve` nor `reject` ever runs: the promise
never settles. -/
theorem close_without_listener_never_settles :
    (close none).settled = none := by
  rfl

/-- C7 as amended: `close()` always closes the registry connection, and
the returned promise settles exactly as the listener's close callback
reports — resolving on success, rejecting on a close error — when a
listener exists; when the listener was never opened the promise never
settles. -/
theorem close_settles_per_listener_callback
    (server : Option (Except JsErr Unit)) :
    (close server).registryClosed = true ∧
    (close server).settled = server := by
  refine ⟨rfl, ?_⟩
  cases server <;> rfl

/-- C8 counterexample. The claim says an empty service map is rejected
at construction. `checkProps` only tests that `props.services` is an
object (`util.isObj`); an empty service map is an object, so
construction succeeds. -/
theorem empty_service_map_accepted :
    checkProps (some ()) (some []) = Except.ok () := by
  rfl

/-- C8 as amended: construction validates synchronously that the
registry handle and the service map are present (objects); either one
absent raises the corresponding configuration error; with both present
construction succeeds — the service map's non-emptiness is not
checked. -/
theorem checkProps_validates_presence_only :
    (∀ s, checkProps none s =
      Except.error (JsErr.error "Please specify registry, use Zk or Nacos init registry")) ∧
    (∀ r, checkProps (some r) none =
      Except.error (JsErr.error "Please specify dubbo service")) ∧
    (∀ r svcs, checkProps (some r) (some svcs) = Except.ok ()) :=
  ⟨fun _ => rfl, fun _ => rfl, fun _ _ => rfl⟩

/-- C9 counterexample. The claim says the registration URL contains the
query pair `protocol=dubbo`. The source spells the key `protocal`
(line 296): the concrete URL built for the Echo service carries
`protocal=dubbo` and no `protocol` key at all. -/
theorem protocal_typo_in_registration_url :
    buildUrl (fun s => s) "1.2.3.4" 20880 echoService 1 0 =
      "dubbo://1.2.3.4:20880/Echo?group=&version=0.0.0&method=say&side=provider&pid=1&generic=false&protocal=dubbo&dynamic=true&category=providers&anyhost=true&timestamp=0" ∧
    (buildUrlPairs echoService 1 0).contains ("protocol", "dubbo") = false ∧
    (buildUrlPairs echoService 1 0).contains ("protocal", "dubbo") = true := by
  refine ⟨?_, ?_, ?_⟩ <;> rfl

/-- C9 as amended: the registration URL has the shape
`dubbo://<ip>:<port>/<interface>?` followed by the `&`-joined query
pairs `group`, `version`, `method` (the comma-join of the method
names), `side=provider`, `pid`, `generic=false`, `protocal=dubbo`
(the key is misspelled in the source), `dynamic=true`,
`category=providers`, `anyhost=true`, `timestamp`, with every query
value percent-encoded by the query encoder. -/
theorem buildUrl_shape (encode : String → String) (ipAddr : String)
    (port : Nat) (iface g v : String) (methods : List (String × Handler))
    (pid ts : Nat) :
    buildUrl encode ipAddr port
        { dubboInterface := iface, group := g, version := v,
          methods := methods } pid ts =
      "dubbo://" ++ ipAddr ++ ":" ++ toString port ++ "/" ++ iface ++ "?" ++
        String.intercalate "&"
          ["group=" ++ encode g,
           "version=" ++ encode v,
           "method=" ++ encode (String.intercalate "," (methods.map Prod.fst)),
           "side=" ++ encode "provider",
           "pid=" ++ encode (toString pid),
           "generic=" ++ encode "false",
           "protocal=" ++ encode "dubbo",
           "dynamic=" ++ encode "true",
           "category=" ++ encode "providers",
           "anyhost=" ++ encode "true",
           "timestamp=" ++ encode (toString ts)] := by
  rfl

/-- C10. `matchService` destructures the attachment with defaults
`group = ''` and `version = '0.0.0'` (line 313): resolution of a
request that omits the version behaves exactly as if version `"0.0.0"`
had been requested, and resolution of a request that omits the group
behaves exactly as if group `""` had been requested. -/
theorem omitted_version_and_group_default (router : Router)
    (req : Request) :
    (matchService router
        { req with attachment := { req.attachment with version := none } } =
      matchService router
        { req with attachment := { req.attachment with version := some "0.0.0" } }) ∧
    (matchService router
        { req with attachment := { req.attachment with group := none } } =
      matchService router
        { req with attachment := { req.attachment with group := some "" } }) :=
  ⟨rfl, rfl⟩

/-- C5 counterexample. The claim says `ready()` resolves only after
both the socket is bound and the registry has been informed, in that
order. In the bind-success callback the source calls `this.resolve()`
(line 129) before `this.registerServices()` (line 131): in the concrete
startup trace the readiness promise resolves at position 2, before any
`registryInformed` event, so resolution does not wait for the registry
announcement. -/
theorem ready_resolves_before_registry_informed :
    sampleTrace.take 4 = [Ev.portAllocated 20880, Ev.listenBound 20880,
      Ev.readyResolved, Ev.retryReset] ∧
    resolveOnlyAfterInformed sampleTrace = false := by
  exact ⟨rfl, rfl⟩

/-- C5 as amended: on the successful startup path `ready()` resolves
exactly once, immediately after the socket is bound — and before, not
after, the registry announcement: every `registryInformed` event in
the trace occurs strictly later than the resolution at position 2. -/
theorem ready_resolution_order (port : Nat)
    (registryReady : Except JsErr Unit)
    (setting : Option (String → String → String × String))
    (services : List (String × IDubboService)) (encode : String → String)
    (ipAddr : String) (pid ts : Nat) :
    (listenSuccessTrace port registryReady setting services encode ipAddr
        pid ts).count Ev.readyResolved = 1 ∧
    (listenSuccessTrace port registryReady setting services encode ipAddr
        pid ts).get? 1 = some (Ev.listenBound port) ∧
    (listenSuccessTrace port registryReady setting services encode ipAddr
        pid ts).get? 2 = some Ev.readyResolved ∧
    ∀ i b, (listenSuccessTrace port registryReady setting services encode
        ipAddr pid ts).get? i = some (Ev.registryInformed b) → 2 < i := by
  refine ⟨?_, rfl, rfl, ?_⟩
  · cases registryReady <;>
      simp [listenSuccessTrace, registerServicesTrace, List.count_cons]
  · intro i b h
    match i with
    | 0 => simp [listenSuccessTrace] at h
    | 1 => simp [listenSuccessTrace] at h
    | 2 => simp [listenSuccessTrace] at h
    | (n + 3) => omega

/-- C6 counterexample. The claim says that when the registry's
`ready()` fails after a successful bind, the readiness signal rejects
with that error. In the concrete failure trace the readiness promise
has already resolved at bind time (line 129) and never rejects —
`registerServices`' rethrown error (line 238) is neither awaited nor
caught by the bind callback — and `registyServices` is never called. -/
theorem registry_failure_leaves_ready_resolved :
    failTrace.contains Ev.readyRejected = false ∧
    failTrace.contains Ev.readyResolved = true ∧
    failTrace.filter isInformed = [] := by
  exact ⟨rfl, rfl, rfl⟩

/-- The batch built by the `registerServices` loop always has exactly
one (interface, url) entry per registered service — the loop runs to
completion over the whole service map before anything is announced. -/
theorem registerServicesRun_batch_length
    (setting : Option (String → String → String × String))
    (services : List (String × IDubboService)) (encode : String → String)
    (ipAddr : String) (port pid ts : Nat) :
    (registerServicesRun setting services encode ipAddr port pid ts).2.length =
      services.length := by
  have aux : ∀ (l : List (String × IDubboService))
      (acc : Router × List (String × String)),
      (l.foldl (registerStep setting encode ipAddr port pid ts) acc).2.length =
        acc.2.length + l.length := by
    intro l
    induction l with
    | nil => intro acc; simp
    | cons e rest ih =>
      intro acc
      rw [List.foldl_cons, ih]
      simp [registerStep]
      omega
  rw [registerServicesRun, aux]
  simp

/-- C6 as amended: when the registry's `ready()` fails after a
successful bind, the announcement `registyServices` is never made — so
no partial registration can occur; indeed on the success path the
registry is only ever informed with the complete batch, one entry per
registered service — but the error does not surface through the
readiness signal: the readiness promise has already resolved at bind
time and never rejects. -/
theorem registry_failure_aborts_registration (port : Nat) (e : JsErr)
    (setting : Option (String → String → String × String))
    (services : List (String × IDubboService)) (encode : String → String)
    (ipAddr : String) (pid ts : Nat) :
    (∀ b, Ev.registryInformed b ∉
      listenSuccessTrace port (Except.error e) setting services encode
        ipAddr pid ts) ∧
    Ev.readyRejected ∉
      listenSuccessTrace port (Except.error e) setting services encode
        ipAddr pid ts ∧
    Ev.readyResolved ∈
      listenSuccessTrace port (Except.error e) setting services encode
        ipAddr pid ts ∧
    ∀ b, Ev.registryInformed b ∈
        listenSuccessTrace port (Except.ok ()) setting services encode
          ipAddr pid ts →
      b.length = services.length := by
  refine ⟨?_, ?_, ?_, ?_⟩
  · intro b
    simp [listenSuccessTrace, registerServicesTrace]
  · simp [listenSuccessTrace, registerServicesTrace]
  · simp [listenSuccessTrace, registerServicesTrace]
  · intro b hb
    simp [listenSuccessTrace, registerServicesTrace] at hb
    rw [hb]
    exact registerServicesRun_batch_length setting services encode ipAddr
      port pid ts

/-- Inserting a service under `iface` appends it to that interface's
bucket and leaves every other bucket unchanged. -/
theorem bucketOf_routerInsert (r : Router) (iface : String)
    (s : IDubboService) (j : String) :
    bucketOf (routerInsert r iface s) j =
      if j = iface then bucketOf r j ++ [s] else bucketOf r j := by
  induction r with
  | nil =>
    by_cases h : j = iface
    · subst h; simp [routerInsert, bucketOf]
    · have h2 : ¬ iface = j := fun hh => h hh.symm
      simp [routerInsert, bucketOf, h, h2]
  | cons kv rest ih =>
    obtain ⟨k, l⟩ := kv
    by_cases hk : k = iface
    · subst hk
      by_cases hj : j = k
      · subst hj; simp [routerInsert, bucketOf]
      · have h2 : ¬ k = j := fun hh => hj hh.symm
        simp [routerInsert, bucketOf, hj, h2]
    · by_cases hj : k = j
      · subst hj
        simp [routerInsert, bucketOf, hk]
      · simp [routerInsert, bucketOf, hk, hj, ih]

/-- The bucket a built router holds for an interface is exactly the
registered services with that interface, in registration order. -/
theorem bucketOf_buildRouter (svcs : List IDubboService) (iface : String) :
    bucketOf (buildRouter svcs) iface =
      svcs.filter (fun s => s.dubboInterface = iface) := by
  have aux : ∀ (l : List IDubboService) (r : Router),
      bucketOf (l.foldl (fun r s => routerInsert r s.dubboInterface s) r)
          iface =
        bucketOf r iface ++ l.filter (fun s => s.dubboInterface = iface) := by
    intro l
    induction l with
    | nil => intro r; simp
    | cons s rest ih =>
      intro r
      rw [List.foldl_cons, ih, bucketOf_routerInsert]
      by_cases h : s.dubboInterface = iface
      · simp [List.filter_cons, h]
      · have h2 : ¬ iface = s.dubboInterface := fun hh => h hh.symm
        simp [List.filter_cons, h, h2]
  rw [buildRouter, aux]
  simp [bucketOf]

/-- `find?` over a `filter` is `find?` with the conjoined predicate. -/
theorem find?_filter_eq {α : Type} (l : List α) (q p : α → Bool) :
    (l.filter q).find? p = l.find? (fun a => q a && p a) := by
  induction l with
  | nil => rfl
  | cons a l ih =>
    by_cases hq : q a
    · by_cases hp : p a <;>
        simp [List.filter_cons, hq, List.find?_cons, hp, ih]
    · simp [List.filter_cons, hq, List.find?_cons, ih]

/-- The `find` predicate of `matchService`, conjoined with membership
in the path's bucket, is exactly the specification's resolution
condition. -/
theorem matchService_pred_iff (request : Request) (t : IDubboService) :
    ((t.dubboInterface = request.attachment.path : Bool) &&
      matchPred request.methodName (request.attachment.group.getD "")
        (request.attachment.version.getD "0.0.0") t) = true ↔
      resolves request t := by
  simp only [matchPred, resolves, Bool.and_eq_true, decide_eq_true_eq,
    Bool.or_eq_true]
  constructor
  · rintro ⟨hpath, ⟨hm, hg⟩, hv⟩
    exact ⟨hpath, hg.symm, by tauto, hm⟩
  · rintro ⟨hpath, hg, hv, hm⟩
    exact ⟨hpath, ⟨hm, hg.symm⟩, by tauto⟩

/-- C3. Routing over the router built from a registered service list:
`matchService` returns a descriptor if and only if that descriptor's
interface equals the request path, its group exactly equals the
requested group (default `""`), its version equals the requested
version unless the requested version is the wildcard `"*"` (which
matches any version), its method table contains the requested method
name, and it is the first descriptor in registration order satisfying
all of that (every earlier registered descriptor fails the
condition). Being a function of the router and the request, resolution
with identical inputs is deterministic. -/
theorem matchService_resolves_iff_first_match (svcs : List IDubboService)
    (request : Request) (s : IDubboService) :
    matchService (buildRouter svcs) request = some s ↔
      resolves request s ∧
      ∃ pre post, svcs = pre ++ s :: post ∧
        ∀ t ∈ pre, ¬ resolves request t := by
  have hms : matchService (buildRouter svcs) request =
      svcs.find? (fun t =>
        (t.dubboInterface = request.attachment.path : Bool) &&
          matchPred request.methodName (request.attachment.group.getD "")
            (request.attachment.version.getD "0.0.0") t) := by
    simp only [matchService]
    rw [bucketOf_buildRouter, find?_filter_eq]
  rw [hms, List.find?_eq_some]
  constructor
  · rintro ⟨hp, as, bs, heq, hall⟩
    refine ⟨(matchService_pred_iff request s).mp hp, as, bs, heq, ?_⟩
    intro t ht hres
    have hb := hall t ht
    have hp : ((t.dubboInterface = request.attachment.path : Bool) &&
        matchPred request.methodName (request.attachment.group.getD "")
          (request.attachment.version.getD "0.0.0") t) = true :=
      (matchService_pred_iff request t).mpr hres
    rw [hp] at hb
    simp at hb
  · rintro ⟨hres, pre, post, heq, hall⟩
    refine ⟨(matchService_pred_iff request s).mpr hres, pre, post, heq, ?_⟩
    intro t ht
    have hnr : ¬ resolves request t := hall t ht
    cases hb : ((t.dubboInterface = request.attachment.path : Bool) &&
        matchPred request.methodName (request.attachment.group.getD "")
          (request.attachment.version.getD "0.0.0") t) with
    | false => simp [hb]
    | true => exact absurd ((matchService_pred_iff request t).mp hb) hnr

end DubboServer
